import Mathlib

/-!
# Verification of the PhonePe Pulse ETL pipeline (shallow embedding)

This file embeds the core of the ETL pipeline — the path coordinate
resolver, the name normalizer and narrow cleaner (`src/utils/helpers.py`),
the six record extractors (`src/scripts/extract_data.py`), the six
dataframe transformers (`src/scripts/transform_data.py`), and the
database loader (`src/database/insert_data.py`,
`src/database/db_connection.py`) — as executable Lean definitions, and
proves properties of them.

Modelling conventions:
* Python strings are modelled over their character lists (`List Char`);
  case conversion, whitespace, word characters and digits are modelled at
  ASCII precision, which covers every string the pipeline manipulates
  (state/district names, entity types, numerals, path segments).
* Machine integers and the integral-valued numeric JSON fields are
  modelled as `Int`/`Nat`.  The amounts in the claims are exact integers,
  so no floating-point rounding is involved in any statement.
* Pandas dataframes are modelled as lists of records with a fixed schema;
  `df.dropna(subset=…)` removes only null/NaN entries, and since every
  field of the record model holds a concrete value (the extractors always
  populate every column), the drop step keeps every row.
* The MySQL sink is modelled as a table plus a transactional working
  copy; `executemany` applies upserts to the working copy, `commit`
  publishes it and `rollback` restores it.
-/

/-! ## Python string primitives (ASCII model) -/

/-- Python `str.isspace` / regex `\s` at ASCII precision:
space, tab, newline, carriage return, vertical tab, form feed. -/
def pyIsSpace (c : Char) : Bool :=
  c = ' ' || c = '\t' || c = '\n' || c = '\r' || c = '\x0b' || c = '\x0c'

/-- ASCII uppercase letter. -/
def isUpperChar (c : Char) : Bool :=
  decide (65 ≤ c.toNat ∧ c.toNat ≤ 90)

/-- ASCII lowercase letter. -/
def isLowerChar (c : Char) : Bool :=
  decide (97 ≤ c.toNat ∧ c.toNat ≤ 122)

/-- A cased character (ASCII letter); Python `str.title` starts a new
word at every boundary between a non-cased and a cased character. -/
def isCasedChar (c : Char) : Bool :=
  isUpperChar c || isLowerChar c

/-- ASCII digit. -/
def isDigitChar (c : Char) : Bool :=
  decide (48 ≤ c.toNat ∧ c.toNat ≤ 57)

/-- Regex `\w` at ASCII precision: letters, digits, underscore. -/
def isWordChar (c : Char) : Bool :=
  isCasedChar c || isDigitChar c || c = '_'

/-- Python `str.lower` on one character (ASCII): `Char.toLower` performs
exactly the ASCII case mapping. -/
def pyLower (xs : List Char) : List Char :=
  xs.map Char.toLower

/-- `str.lstrip` (ASCII whitespace). -/
def pyStripLeft (xs : List Char) : List Char :=
  xs.dropWhile pyIsSpace

/-- `str.rstrip` (ASCII whitespace). -/
def pyStripRight (xs : List Char) : List Char :=
  (xs.reverse.dropWhile pyIsSpace).reverse

/-- Python `str.strip`: remove whitespace from both ends. -/
def pyStrip (xs : List Char) : List Char :=
  pyStripRight (pyStripLeft xs)

/-- The body of Python `str.title` (ASCII): `prevCased` records whether
the previous character was cased; a cased character is uppercased when it
starts a word and lowercased otherwise. -/
def titleAux (prevCased : Bool) : List Char → List Char
  | [] => []
  | c :: cs =>
    if isCasedChar c then
      (if prevCased then c.toLower else c.toUpper) :: titleAux true cs
    else
      c :: titleAux false cs

/-- Python `str.title` (ASCII). -/
def pyTitle (xs : List Char) : List Char :=
  titleAux false xs

/-- The body of Python `str.split()` with no separator: split on runs of
whitespace, producing no empty words; `cur` accumulates the current word
reversed. -/
def splitWsAux : List Char → List Char → List (List Char)
  | [], cur => if cur = [] then [] else [cur.reverse]
  | c :: cs, cur =>
    if pyIsSpace c then
      if cur = [] then splitWsAux cs [] else cur.reverse :: splitWsAux cs []
    else
      splitWsAux cs (c :: cur)

/-- Python `str.split()` with no separator. -/
def pySplitWs (xs : List Char) : List (List Char) :=
  splitWsAux xs []

/-- Python `'/'.split`-style separator split, keeping empty segments
(`str.split(sep)`). -/
def splitSep (sep : Char) : List Char → List (List Char)
  | [] => [[]]
  | c :: cs =>
    let r := splitSep sep cs
    if c = sep then [] :: r
    else
      match r with
      | [] => [[c]]
      | h :: t => (c :: h) :: t

/-- `' '.join(words)`. -/
def joinSpace (ws : List (List Char)) : List Char :=
  List.intercalate [' '] ws

/-- `str.isdigit()` (ASCII): non-empty and all digits. -/
def pyIsDigit (xs : List Char) : Bool :=
  !xs.isEmpty && xs.all isDigitChar

/-- `int(s)` on a digit string. -/
def strToNat (xs : List Char) : Nat :=
  xs.foldl (fun a c => a * 10 + (c.toNat - 48)) 0

/-! ## `src/utils/helpers.py` -/

/-- The fixed alias table of `normalize_state_name`
(`state_mappings.get(normalized, normalized)`). -/
def stateMappings (xs : List Char) : List Char :=
  if xs = "andaman & nicobar islands".data then "andaman and nicobar islands".data
  else if xs = "dadra & nagar haveli & daman & diu".data then
    "dadra and nagar haveli and daman and diu".data
  else if xs = "jammu & kashmir".data then "jammu and kashmir".data
  else xs

/-- `normalize_state_name` from `src/utils/helpers.py` on character
lists: empty input returns empty (`if not state_name`), otherwise
lowercase + strip, apply the alias table, then title-case. -/
def normalizeStateL (xs : List Char) : List Char :=
  if xs = [] then []
  else pyTitle (stateMappings (pyStrip (pyLower xs)))

/-- `normalize_state_name` on strings. -/
def normalize_state_name (s : String) : String :=
  String.mk (normalizeStateL s.data)

/-- The character filter of `clean_string`:
`re.sub(r'[^\w\s-]', '', ·)` keeps word characters, whitespace and
hyphens. -/
def cleanKeep (c : Char) : Bool :=
  isWordChar c || pyIsSpace c || c = '-'

/-- `clean_string` from `src/utils/helpers.py` on character lists: empty
input returns empty (`if not text`), otherwise collapse whitespace via
`' '.join(text.split())`, drop the characters the regex removes, and
strip. -/
def cleanStringL (xs : List Char) : List Char :=
  if xs = [] then []
  else pyStrip ((joinSpace (pySplitWs xs)).filter cleanKeep)

/-- `clean_string` on strings. -/
def clean_string (s : String) : String :=
  String.mk (cleanStringL s.data)

/-- `next_part.replace('.json', '')`: delete every occurrence of the
substring `.json`. -/
def dropJsonExt : List Char → List Char
  | [] => []
  | '.' :: 'j' :: 's' :: 'o' :: 'n' :: rest => dropJsonExt rest
  | c :: cs => c :: dropJsonExt cs

/-- `….replace('.json', '').replace('\\', '')` applied to a candidate
quarter segment in `extract_year_quarter`. -/
def stripExt (xs : List Char) : List Char :=
  (dropJsonExt xs).filter (fun c => !(c = '\\'))

/-- The year test of `extract_year_quarter`:
`part.isdigit() and len(part) == 4 and 2018 <= int(part) <= 2024`. -/
def isYearPart (xs : List Char) : Bool :=
  pyIsDigit xs && xs.length = 4 && decide (2018 ≤ strToNat xs ∧ strToNat xs ≤ 2024)

/-- The quarter test of `extract_year_quarter`:
`next_part.isdigit() and 1 <= int(next_part) <= 4`, applied after
`stripExt`. -/
def isQuarterPart (xs : List Char) : Bool :=
  pyIsDigit xs && decide (1 ≤ strToNat xs ∧ strToNat xs ≤ 4)

/-- The scanning loop of `extract_year_quarter`: walk the path segments
left to right carrying the last year seen; on a year segment whose
successor (with the extension stripped) is a 1–4 numeral, stop with that
pair; a year segment without such a successor only updates the carried
year. -/
def yqLoop : List String → Option Nat → Option Nat × Option Nat
  | [], year => (year, none)
  | [p], year =>
    if isYearPart p.data then (some (strToNat p.data), none) else (year, none)
  | p :: q :: rest, year =>
    if isYearPart p.data then
      if isQuarterPart (stripExt q.data) then
        (some (strToNat p.data), some (strToNat (stripExt q.data)))
      else yqLoop (q :: rest) (some (strToNat p.data))
    else yqLoop (q :: rest) year

/-- `file_path.replace('\\', '/').split('/')`. -/
def pathParts (path : String) : List String :=
  (splitSep '/' (path.data.map (fun c => if c = '\\' then '/' else c))).map String.mk

/-- `extract_year_quarter` from `src/utils/helpers.py`. -/
def extract_year_quarter (path : String) : Option Nat × Option Nat :=
  yqLoop (pathParts path) none

/-- Whether some adjacent segment pair (year, quarter-with-extension)
occurs in the list — the condition under which the scanning loop stops
with both coordinates set. -/
def hasAdjPair : List String → Bool
  | p :: q :: rest =>
    (isYearPart p.data && isQuarterPart (stripExt q.data)) || hasAdjPair (q :: rest)
  | _ => false

/-! ## Record schemas (the six datasets)

The extractors always populate every column of their records, so the
dataframe model is a list of total records; `year`/`quarter` and the
counts are integers, `transaction_amount` holds the exact integral
amounts appearing in the claims. -/

structure AggTxnRow where
  state : String
  year : Int
  quarter : Int
  transaction_type : String
  payment_mode : String
  transaction_count : Int
  transaction_amount : Int
deriving DecidableEq, Repr

/-- Output schema of the aggregated-transactions transform: the group-by
keeps the key columns and the two summed measures, dropping
`payment_mode`. -/
structure AggTxnOut where
  state : String
  year : Int
  quarter : Int
  transaction_type : String
  transaction_count : Int
  transaction_amount : Int
deriving DecidableEq, Repr

structure AggUserRow where
  state : String
  year : Int
  quarter : Int
  registered_users : Int
  app_opens : Int
deriving DecidableEq, Repr

structure MapTxnRow where
  state : String
  year : Int
  quarter : Int
  district : String
  transaction_count : Int
  transaction_amount : Int
deriving DecidableEq, Repr

structure MapUserRow where
  state : String
  year : Int
  quarter : Int
  district : String
  registered_users : Int
  app_opens : Int
deriving DecidableEq, Repr

structure TopTxnRow where
  state : String
  year : Int
  quarter : Int
  entity_type : String
  entity_name : String
  transaction_count : Int
  transaction_amount : Int
deriving DecidableEq, Repr

structure TopUserRow where
  state : String
  year : Int
  quarter : Int
  entity_type : String
  entity_name : String
  registered_users : Int
deriving DecidableEq, Repr

/-! ## `src/scripts/transform_data.py`

Each transform copies the rows, normalizes the state column with
`normalize_state_name`, cleans the free-text columns with
`clean_string` (and lowercases `entity_type` for the top datasets),
coerces the numeric columns (an identity in this model, where the
numeric columns already hold integers), drops null rows (`dropna` keeps
every row of this model since every field holds a value), and — for
aggregated transactions only — groups by the natural key and sums the
measures.  Pandas `groupby` sorts the group keys, modelled here by an
insertion sort over the lexicographic key order. -/

/-- `str.lower` on strings (`df['entity_type'].str.lower()`). -/
def pyLowerS (s : String) : String :=
  String.mk (pyLower s.data)

/-- The natural key of an aggregated-transactions row:
`['state', 'year', 'quarter', 'transaction_type']`. -/
abbrev AggKey := String × Int × Int × String

def aggKey (r : AggTxnRow) : AggKey :=
  (r.state, r.year, r.quarter, r.transaction_type)

def outKey (r : AggTxnOut) : AggKey :=
  (r.state, r.year, r.quarter, r.transaction_type)

/-- Lexicographic comparison on character lists (`<` of Python
strings, used only to reproduce the sorted key order of `groupby`). -/
def charListLe : List Char → List Char → Bool
  | [], _ => true
  | _ :: _, [] => false
  | a :: as, b :: bs =>
    if a.toNat < b.toNat then true
    else if b.toNat < a.toNat then false
    else charListLe as bs

/-- Lexicographic comparison of group keys. -/
def aggKeyLe (a b : AggKey) : Bool :=
  if a.1 = b.1 then
    if a.2.1 = b.2.1 then
      if a.2.2.1 = b.2.2.1 then charListLe a.2.2.2.data b.2.2.2.data
      else decide (a.2.2.1 < b.2.2.1)
    else decide (a.2.1 < b.2.1)
  else charListLe a.1.data b.1.data

/-- Per-row cleaning step of `transform_aggregated_transactions`:
normalize the state, clean the transaction type. -/
def aggTxnClean (r : AggTxnRow) : AggTxnRow :=
  { r with
    state := normalize_state_name r.state
    transaction_type := clean_string r.transaction_type }

/-- `transform_aggregated_transactions` from
`src/scripts/transform_data.py`: empty in, empty out; otherwise clean
the rows, then `groupby(['state','year','quarter','transaction_type'])`
`.agg(sum).reset_index()` — one output row per distinct key, in sorted
key order, with both measures summed over the key's rows.  The final
`dropna` keeps every row (no field of the model is null). -/
def transform_aggregated_transactions (rows : List AggTxnRow) : List AggTxnOut :=
  if rows = [] then []
  else
    let cleaned := rows.map aggTxnClean
    let keys := List.insertionSort (fun a b => aggKeyLe a b = true) (cleaned.map aggKey).dedup
    keys.map (fun k =>
      { state := k.1
        year := k.2.1
        quarter := k.2.2.1
        transaction_type := k.2.2.2
        transaction_count :=
          ((cleaned.filter (fun r => aggKey r = k)).map (fun r => r.transaction_count)).sum
        transaction_amount :=
          ((cleaned.filter (fun r => aggKey r = k)).map (fun r => r.transaction_amount)).sum })

/-- Per-row step of `transform_aggregated_users`. -/
def aggUserClean (r : AggUserRow) : AggUserRow :=
  { r with state := normalize_state_name r.state }

/-- `transform_aggregated_users`: normalize the state; no grouping. -/
def transform_aggregated_users (rows : List AggUserRow) : List AggUserRow :=
  if rows = [] then [] else rows.map aggUserClean

/-- Per-row step of `transform_map_transactions`: normalize the state,
clean the district. -/
def mapTxnClean (r : MapTxnRow) : MapTxnRow :=
  { r with
    state := normalize_state_name r.state
    district := clean_string r.district }

/-- `transform_map_transactions` from `src/scripts/transform_data.py`:
per-row cleaning only — there is no grouping step, and the `dropna` on
`['state','year','quarter']` keeps every row of the model. -/
def transform_map_transactions (rows : List MapTxnRow) : List MapTxnRow :=
  if rows = [] then [] else rows.map mapTxnClean

/-- Per-row step of `transform_map_users`. -/
def mapUserClean (r : MapUserRow) : MapUserRow :=
  { r with
    state := normalize_state_name r.state
    district := clean_string r.district }

/-- `transform_map_users`: per-row cleaning only, no grouping. -/
def transform_map_users (rows : List MapUserRow) : List MapUserRow :=
  if rows = [] then [] else rows.map mapUserClean

/-- Per-row step of `transform_top_transactions`: normalize the state,
clean the entity name (applied to every row, pincodes included),
lowercase the entity type. -/
def topTxnClean (r : TopTxnRow) : TopTxnRow :=
  { r with
    state := normalize_state_name r.state
    entity_name := clean_string r.entity_name
    entity_type := pyLowerS r.entity_type }

/-- `transform_top_transactions` from `src/scripts/transform_data.py`:
per-row cleaning only — no grouping, and the `dropna` on
`['state','year','quarter','entity_type','entity_name']` keeps every
row of the model. -/
def transform_top_transactions (rows : List TopTxnRow) : List TopTxnRow :=
  if rows = [] then [] else rows.map topTxnClean

/-- Per-row step of `transform_top_users`. -/
def topUserClean (r : TopUserRow) : TopUserRow :=
  { r with
    state := normalize_state_name r.state
    entity_name := clean_string r.entity_name
    entity_type := pyLowerS r.entity_type }

/-- `transform_top_users`: per-row cleaning only, no grouping. -/
def transform_top_users (rows : List TopUserRow) : List TopUserRow :=
  if rows = [] then [] else rows.map topUserClean

/-! ## JSON documents and `src/scripts/extract_data.py`

Parsed JSON values are modelled by `Json`; a source file is a
`(path, Json)` pair, where a file that failed to parse is represented by
the empty object (`load_json_file` returns `{}` on any error).  Python
truthiness (`if not data.get('success') …`) is `Json.truthy`, with a
missing key modelled as `null`. -/

inductive Json where
  | null : Json
  | bool (b : Bool) : Json
  | num (n : Int) : Json
  | str (s : String) : Json
  | arr (elems : List Json) : Json
  | obj (fields : List (String × Json)) : Json

/-- Python truthiness of a JSON value (`None`, `False`, `0`, `""`,
`[]`, `{}` are falsy). -/
def Json.truthy : Json → Bool
  | .null => false
  | .bool b => b
  | .num n => !(n = 0)
  | .str s => !(s = "")
  | .arr l => !l.isEmpty
  | .obj l => !l.isEmpty

/-- `d.get(key)` on a parsed JSON object: `None` (here `null`) when the
key is missing or the value is not an object. -/
def Json.get (j : Json) (k : String) : Json :=
  match j with
  | .obj fs => (fs.lookup k).getD .null
  | _ => .null

/-- `d.get(key, [])`-style access returning the list when the value is
an array, and the empty list otherwise; `… or []` in
`extract_top_transactions` also turns a falsy value into `[]`, which
this covers. -/
def Json.getArr (j : Json) (k : String) : List Json :=
  match j.get k with
  | .arr l => l
  | _ => []

/-- Field access expecting a string with a default
(`item.get('name', '')`); the documents the pipeline reads hold strings
at these fields. -/
def Json.getStr (j : Json) (k : String) (d : String) : String :=
  match j.get k with
  | .str s => s
  | _ => d

/-- Numeric field access with a default (`metric.get('count', 0)`). -/
def Json.getNum (j : Json) (k : String) (d : Int) : Int :=
  match j.get k with
  | .num n => n
  | _ => d

/-- The fields of an object (`hover_data.items()`), empty for
non-objects. -/
def Json.items : Json → List (String × Json)
  | .obj fs => fs
  | _ => []

/-- Python `str(x)` for the values appearing at pincode entity-name
fields (strings and numbers in the source data). -/
def pyStrOf : Json → String
  | .str s => s
  | .num n => toString n
  | .bool b => if b then "True" else "False"
  | .null => "None"
  | _ => ""

/-- The skip condition shared by all six extractors:
`if not data.get('success') or not data.get('data'): continue`.  It
covers `success=false`, a missing success flag (including a document
that failed to parse, i.e. the empty object), and a missing or empty
data payload. -/
def docSkipped (doc : Json) : Bool :=
  !(doc.get "success").truthy || !(doc.get "data").truthy

/-- Records contributed by one file in `extract_aggregated_transactions`:
resolve (year, quarter) from the path, check the document, then emit one
record per payment instrument of each transaction-type entry, with
`state` fixed to `"india"`. -/
def aggTxnFileRecords (path : String) (doc : Json) : List AggTxnRow :=
  match extract_year_quarter path with
  | (some y, some q) =>
    if docSkipped doc then []
    else
      ((doc.get "data").getArr "transactionData").flatMap (fun item =>
        (item.getArr "paymentInstruments").map (fun pm =>
          { state := "india"
            year := (y : Int)
            quarter := (q : Int)
            transaction_type := item.getStr "name" ""
            payment_mode := pm.getStr "type" ""
            transaction_count := pm.getNum "count" 0
            transaction_amount := pm.getNum "amount" 0 }))
  | _ => []

/-- `extract_aggregated_transactions` over the located files. -/
def extract_aggregated_transactions (files : List (String × Json)) : List AggTxnRow :=
  files.flatMap (fun f => aggTxnFileRecords f.1 f.2)

/-- Records contributed by one file in `extract_aggregated_users`: one
record per valid document, reading the nested `aggregated` summary. -/
def aggUserFileRecords (path : String) (doc : Json) : List AggUserRow :=
  match extract_year_quarter path with
  | (some y, some q) =>
    if docSkipped doc then []
    else
      let user := (doc.get "data").get "aggregated"
      [{ state := "india"
         year := (y : Int)
         quarter := (q : Int)
         registered_users := user.getNum "registeredUsers" 0
         app_opens := user.getNum "appOpens" 0 }]
  | _ => []

def extract_aggregated_users (files : List (String × Json)) : List AggUserRow :=
  files.flatMap (fun f => aggUserFileRecords f.1 f.2)

/-- Country-level pass of `extract_map_transactions`: one record per
metric of each entry of `hoverDataList`, the region name lowercased and
copied into both `state` and `district`. -/
def mapTxnCountryFileRecords (path : String) (doc : Json) : List MapTxnRow :=
  match extract_year_quarter path with
  | (some y, some q) =>
    if docSkipped doc then []
    else
      ((doc.get "data").getArr "hoverDataList").flatMap (fun item =>
        (item.getArr "metric").map (fun metric =>
          { state := pyLowerS (item.getStr "name" "")
            year := (y : Int)
            quarter := (q : Int)
            district := pyLowerS (item.getStr "name" "")
            transaction_count := metric.getNum "count" 0
            transaction_amount := metric.getNum "amount" 0 }))
  | _ => []

/-- State-level pass of `extract_map_transactions`: as the country pass,
but `state` is the lowercased state directory name and `district` the
lowercased entry name. -/
def mapTxnStateFileRecords (stateDir : String) (path : String) (doc : Json) :
    List MapTxnRow :=
  match extract_year_quarter path with
  | (some y, some q) =>
    if docSkipped doc then []
    else
      ((doc.get "data").getArr "hoverDataList").flatMap (fun item =>
        (item.getArr "metric").map (fun metric =>
          { state := pyLowerS stateDir
            year := (y : Int)
            quarter := (q : Int)
            district := pyLowerS (item.getStr "name" "")
            transaction_count := metric.getNum "count" 0
            transaction_amount := metric.getNum "amount" 0 }))
  | _ => []

/-- `extract_map_transactions`: the country-level pass over the hover
files followed by the state-level pass over each state directory's
files, concatenated. -/
def extract_map_transactions (countryFiles : List (String × Json))
    (stateFiles : List (String × String × Json)) : List MapTxnRow :=
  countryFiles.flatMap (fun f => mapTxnCountryFileRecords f.1 f.2) ++
    stateFiles.flatMap (fun f => mapTxnStateFileRecords f.1 f.2.1 f.2.2)

/-- Country-level pass of `extract_map_users`: one record per entry of
the name-keyed `hoverData` map. -/
def mapUserCountryFileRecords (path : String) (doc : Json) : List MapUserRow :=
  match extract_year_quarter path with
  | (some y, some q) =>
    if docSkipped doc then []
    else
      ((doc.get "data").get "hoverData").items.map (fun f =>
        { state := pyLowerS f.1
          year := (y : Int)
          quarter := (q : Int)
          district := pyLowerS f.1
          registered_users := f.2.getNum "registeredUsers" 0
          app_opens := f.2.getNum "appOpens" 0 })
  | _ => []

/-- State-level pass of `extract_map_users`. -/
def mapUserStateFileRecords (stateDir : String) (path : String) (doc : Json) :
    List MapUserRow :=
  match extract_year_quarter path with
  | (some y, some q) =>
    if docSkipped doc then []
    else
      ((doc.get "data").get "hoverData").items.map (fun f =>
        { state := pyLowerS stateDir
          year := (y : Int)
          quarter := (q : Int)
          district := pyLowerS f.1
          registered_users := f.2.getNum "registeredUsers" 0
          app_opens := f.2.getNum "appOpens" 0 })
  | _ => []

def extract_map_users (countryFiles : List (String × Json))
    (stateFiles : List (String × String × Json)) : List MapUserRow :=
  countryFiles.flatMap (fun f => mapUserCountryFileRecords f.1 f.2) ++
    stateFiles.flatMap (fun f => mapUserStateFileRecords f.1 f.2.1 f.2.2)

/-- Records contributed by one file in `extract_top_transactions`: the
three buckets `states`, `districts`, `pincodes` (each tolerating a
missing or null bucket and skipping falsy items), tagged with their
entity type; state and district entity names are lowercased, pincode
entity names go through `str(...)`. -/
def topTxnFileRecords (path : String) (doc : Json) : List TopTxnRow :=
  match extract_year_quarter path with
  | (some y, some q) =>
    if docSkipped doc then []
    else
      let dataObj := doc.get "data"
      (((dataObj.getArr "states").filter Json.truthy).map (fun item =>
        { state := "india"
          year := (y : Int)
          quarter := (q : Int)
          entity_type := "state"
          entity_name := pyLowerS (item.getStr "entityName" "")
          transaction_count := (item.get "metric").getNum "count" 0
          transaction_amount := (item.get "metric").getNum "amount" 0 })) ++
      (((dataObj.getArr "districts").filter Json.truthy).map (fun item =>
        { state := "india"
          year := (y : Int)
          quarter := (q : Int)
          entity_type := "district"
          entity_name := pyLowerS (item.getStr "entityName" "")
          transaction_count := (item.get "metric").getNum "count" 0
          transaction_amount := (item.get "metric").getNum "amount" 0 })) ++
      (((dataObj.getArr "pincodes").filter Json.truthy).map (fun item =>
        { state := "india"
          year := (y : Int)
          quarter := (q : Int)
          entity_type := "pincode"
          entity_name := pyStrOf (item.get "entityName")
          transaction_count := (item.get "metric").getNum "count" 0
          transaction_amount := (item.get "metric").getNum "amount" 0 }))
  | _ => []

def extract_top_transactions (files : List (String × Json)) : List TopTxnRow :=
  files.flatMap (fun f => topTxnFileRecords f.1 f.2)

/-- Records contributed by one file in `extract_top_users`: like the
top-transactions extractor, but the entity name lives at `name` and the
only measure is `registeredUsers`. -/
def topUserFileRecords (path : String) (doc : Json) : List TopUserRow :=
  match extract_year_quarter path with
  | (some y, some q) =>
    if docSkipped doc then []
    else
      let dataObj := doc.get "data"
      (((dataObj.getArr "states").filter Json.truthy).map (fun item =>
        { state := "india"
          year := (y : Int)
          quarter := (q : Int)
          entity_type := "state"
          entity_name := pyLowerS (item.getStr "name" "")
          registered_users := item.getNum "registeredUsers" 0 })) ++
      (((dataObj.getArr "districts").filter Json.truthy).map (fun item =>
        { state := "india"
          year := (y : Int)
          quarter := (q : Int)
          entity_type := "district"
          entity_name := pyLowerS (item.getStr "name" "")
          registered_users := item.getNum "registeredUsers" 0 })) ++
      (((dataObj.getArr "pincodes").filter Json.truthy).map (fun item =>
        { state := "india"
          year := (y : Int)
          quarter := (q : Int)
          entity_type := "pincode"
          entity_name := pyStrOf (item.get "name")
          registered_users := item.getNum "registeredUsers" 0 }))
  | _ => []

def extract_top_users (files : List (String × Json)) : List TopUserRow :=
  files.flatMap (fun f => topUserFileRecords f.1 f.2)

/-! ## `src/database/insert_data.py` and `src/database/db_connection.py`

The sink is a MySQL table per dataset with a unique key and
`ON DUPLICATE KEY UPDATE` upserts.  A connection (`autocommit=False`)
is modelled as the last committed table (`base`) together with the
transactional working copy (`work`): `executemany` upserts into `work`,
`commit` publishes `work`, `rollback` restores it from `base`.  A run
plan says whether and where a dataset's insert fails:
`cursorFail` models `connection.cursor()` raising (before the
`try` block of the per-dataset function, hence propagating), and
`execFail k` models `executemany` raising after `k` records were
applied (inside the `try`, hence caught, rolled back and logged). -/

/-- A record of the batch insert for aggregated transactions
(the tuple built from each dataframe row). -/
structure InsRecord where
  state : String
  year : Int
  quarter : Int
  transaction_type : String
  transaction_count : Int
  transaction_amount : Int
deriving DecidableEq, Repr

def insKey (r : InsRecord) : AggKey :=
  (r.state, r.year, r.quarter, r.transaction_type)

/-- `ON DUPLICATE KEY UPDATE`: a record whose natural key is present
overwrites only the measure columns, otherwise it is appended. -/
def upsert (tbl : List InsRecord) (r : InsRecord) : List InsRecord :=
  if tbl.any (fun t => insKey t = insKey r) then
    tbl.map (fun t =>
      if insKey t = insKey r then
        { t with
          transaction_count := r.transaction_count
          transaction_amount := r.transaction_amount }
      else t)
  else tbl ++ [r]

/-- The sink connection: committed table plus transactional view. -/
structure MConn where
  base : List InsRecord
  work : List InsRecord
  connected : Bool
deriving DecidableEq, Repr

def MConn.executemany (c : MConn) (recs : List InsRecord) : MConn :=
  { c with work := recs.foldl upsert c.work }

def MConn.commit (c : MConn) : MConn :=
  { c with base := c.work }

def MConn.rollback (c : MConn) : MConn :=
  { c with work := c.base }

/-- How one per-dataset insert behaves on the sink side. -/
inductive InsPlan where
  | normal : InsPlan
  | cursorFail : InsPlan
  | execFail (k : Nat) : InsPlan
deriving DecidableEq, Repr

/-- Python exceptions relevant to the loader: `mysql.connector.Error`,
the `NameError` from referencing an unassigned local, and the
`AttributeError` from calling a method on `None`. -/
inductive PyErr where
  | dbError : PyErr
  | nameError : PyErr
  | attrError : PyErr
deriving DecidableEq, Repr

/-- The record tuple built from a transformed aggregated-transactions
row in `insert_aggregated_transactions`. -/
def recordOf (r : AggTxnOut) : InsRecord :=
  { state := r.state
    year := r.year
    quarter := r.quarter
    transaction_type := r.transaction_type
    transaction_count := r.transaction_count
    transaction_amount := r.transaction_amount }

/-- `insert_aggregated_transactions` from `src/database/insert_data.py`:
empty frame returns before touching the connection; `connection.cursor()`
raising propagates (it happens before the `try`); inside the `try`,
a successful `executemany` is followed by `commit`, while a failing one
(after `k` applied records) is caught by `except Error`, logged, rolled
back — and the function then returns normally: the exception is not
re-raised.  The result's second component is `.ok` when the call returns
normally and `.error` when an exception escapes to the caller. -/
def insert_aggregated_transactions (rows : List AggTxnOut) (c : MConn)
    (plan : InsPlan) : MConn × Except PyErr Unit :=
  if rows = [] then (c, .ok ())
  else
    match plan with
    | .cursorFail => (c, .error .dbError)
    | .normal =>
      let c1 := c.executemany (rows.map recordOf)
      (c1.commit, .ok ())
    | .execFail k =>
      let c1 := c.executemany ((rows.map recordOf).take k)
      (c1.rollback, .ok ())

/-- The per-dataset insert body shared (up to record schema) by the six
`insert_…` functions of `src/database/insert_data.py`, stated over the
already-built record tuples; `insert_all_data` is modelled over this
uniform step. -/
def insertDataset (recs : List InsRecord) (c : MConn) (plan : InsPlan) :
    MConn × Except PyErr Unit :=
  if recs = [] then (c, .ok ())
  else
    match plan with
    | .cursorFail => (c, .error .dbError)
    | .normal => ((c.executemany recs).commit, .ok ())
    | .execFail k => ((c.executemany (recs.take k)).rollback, .ok ())

/-- `get_db_connection` from `src/database/db_connection.py`:
`mysql.connector.connect` raising re-raises; on success the connection
is returned when `is_connected()` holds, and the function otherwise
falls off its end, returning `None` (modelled as `.ok none`). -/
def get_db_connection (connectRaises : Bool) (isConn : Bool) :
    Except PyErr (Option MConn) :=
  if connectRaises then .error .dbError
  else if isConn then .ok (some { base := [], work := [], connected := true })
  else .ok none

/-- Result of a run of `insert_all_data`: the outcome visible to the
caller, whether the connection's `close()` was reached, and the final
connection state when one was obtained. -/
structure LoadResult where
  outcome : Except PyErr Unit
  connClosed : Bool
  finalConn : Option MConn

/-- The `try` body of `insert_all_data` over the present datasets
(`transformed_data.get(…) is not None` guards), given each dataset's
records and plan: datasets run in order; the first insert that raises a
`mysql` `Error` is caught by `except Error` and re-raised, aborting the
remaining datasets. -/
def insertAllBody : List (Option (List InsRecord) × InsPlan) → MConn →
    MConn × Except PyErr Unit
  | [], c => (c, .ok ())
  | (none, _) :: rest, c => insertAllBody rest c
  | (some recs, plan) :: rest, c =>
    match insertDataset recs c plan with
    | (c1, .ok _) => insertAllBody rest c1
    | (c1, .error e) => (c1, .error e)

/-- `insert_all_data` from `src/database/insert_data.py`: acquire the
connection inside the `try`; run the per-dataset inserts; the `finally`
block evaluates `connection.is_connected()` and closes.  When
`get_db_connection` itself raised, the local `connection` was never
assigned, so the `finally` block raises `NameError`, which replaces the
propagating error; when it returned `None`, the `finally` block's
attribute access on `None` raises `AttributeError`. -/
def insert_all_data (datasets : List (Option (List InsRecord) × InsPlan))
    (connectRaises : Bool) (isConn : Bool) : LoadResult :=
  match get_db_connection connectRaises isConn with
  | .error _ =>
    { outcome := .error .nameError, connClosed := false, finalConn := none }
  | .ok none =>
    { outcome := .error .attrError, connClosed := false, finalConn := none }
  | .ok (some c0) =>
    let (c1, res) := insertAllBody datasets c0
    if c1.connected then
      { outcome := res
        connClosed := true
        finalConn := some { c1 with connected := false } }
    else
      { outcome := res, connClosed := false, finalConn := some c1 }

/-- No-uppercase invariant on a character list. -/
def noUpper (xs : List Char) : Bool :=
  xs.all (fun c => !isUpperChar c)

/-! ## Claim theorems: skipping invalid documents (C9) -/

/-- A document whose payload is substantial but whose success flag is
`false`: it must contribute nothing. -/
def skippedDoc : Json :=
  .obj [("success", .bool false),
        ("data", .obj [("transactionData",
          .arr [.obj [("name", .str "Recharge"),
                      ("paymentInstruments",
                        .arr [.obj [("type", .str "CARD"),
                                    ("count", .num 3), ("amount", .num 30)]])]])])]

/-- The spec's concrete country-level map document. -/
def karnatakaDoc : Json :=
  .obj [("success", .bool true),
        ("data", .obj [("hoverDataList",
          .arr [.obj [("name", .str "Karnataka"),
                      ("metric", .arr [.obj [("count", .num 7),
                                             ("amount", .num 70)]])]])])]

/-! ## Character-level lemmas -/

theorem char_toNat_inj {a b : Char} (h : a.toNat = b.toNat) : a = b := by
  have h2 := congrArg Char.ofNat h
  rwa [Char.ofNat_toNat, Char.ofNat_toNat] at h2

theorem char_eq_iff_toNat {a b : Char} : a = b ↔ a.toNat = b.toNat :=
  ⟨fun h => congrArg Char.toNat h, char_toNat_inj⟩

theorem toNat_ofNat_valid (n : Nat) (h : n.isValidChar) : (Char.ofNat n).toNat = n := by
  unfold Char.ofNat
  rw [dif_pos h]
  rfl

theorem toNat_toLower (c : Char) :
    (Char.toLower c).toNat =
      if 65 ≤ c.toNat ∧ c.toNat ≤ 90 then c.toNat + 32 else c.toNat := by
  unfold Char.toLower
  split
  case isTrue h =>
    rw [if_pos (by omega : 65 ≤ c.toNat ∧ c.toNat ≤ 90)]
    exact toNat_ofNat_valid _ (Or.inl (by omega))
  case isFalse h =>
    rw [if_neg (by omega : ¬(65 ≤ c.toNat ∧ c.toNat ≤ 90))]

theorem toNat_toUpper (c : Char) :
    (Char.toUpper c).toNat =
      if 97 ≤ c.toNat ∧ c.toNat ≤ 122 then c.toNat - 32 else c.toNat := by
  unfold Char.toUpper
  split
  case isTrue h =>
    rw [if_pos (by omega : 97 ≤ c.toNat ∧ c.toNat ≤ 122)]
    exact toNat_ofNat_valid _ (Or.inl (by omega))
  case isFalse h =>
    rw [if_neg (by omega : ¬(97 ≤ c.toNat ∧ c.toNat ≤ 122))]

theorem toLower_toLower (c : Char) : (Char.toLower c).toLower = c.toLower := by
  apply char_toNat_inj
  simp only [toNat_toLower]
  split_ifs <;> omega

theorem toLower_toUpper (c : Char) : (Char.toUpper c).toLower = c.toLower := by
  apply char_toNat_inj
  simp only [toNat_toLower, toNat_toUpper]
  split_ifs <;> omega

theorem toUpper_toUpper (c : Char) : (Char.toUpper c).toUpper = c.toUpper := by
  apply char_toNat_inj
  simp only [toNat_toUpper]
  split_ifs <;> omega

theorem isCased_toLower (c : Char) : isCasedChar c.toLower = isCasedChar c := by
  rw [Bool.eq_iff_iff]
  simp only [isCasedChar, isUpperChar, isLowerChar, Bool.or_eq_true, decide_eq_true_eq,
    toNat_toLower]
  split_ifs <;> omega

theorem isCased_toUpper (c : Char) : isCasedChar c.toUpper = isCasedChar c := by
  rw [Bool.eq_iff_iff]
  simp only [isCasedChar, isUpperChar, isLowerChar, Bool.or_eq_true, decide_eq_true_eq,
    toNat_toUpper]
  split_ifs <;> omega

theorem pyIsSpace_iff_toNat (c : Char) :
    pyIsSpace c = true ↔
      (c.toNat = 32 ∨ c.toNat = 9 ∨ c.toNat = 10 ∨ c.toNat = 13 ∨
        c.toNat = 11 ∨ c.toNat = 12) := by
  simp only [pyIsSpace, Bool.or_eq_true, decide_eq_true_eq, char_eq_iff_toNat,
    show (' ' : Char).toNat = 32 from rfl, show ('\t' : Char).toNat = 9 from rfl,
    show ('\n' : Char).toNat = 10 from rfl, show ('\r' : Char).toNat = 13 from rfl,
    show ('\x0b' : Char).toNat = 11 from rfl, show ('\x0c' : Char).toNat = 12 from rfl]
  tauto

theorem pyIsSpace_toLower (c : Char) : pyIsSpace c.toLower = pyIsSpace c := by
  rw [Bool.eq_iff_iff, pyIsSpace_iff_toNat, pyIsSpace_iff_toNat, toNat_toLower]
  split_ifs <;> omega

theorem pyIsSpace_toUpper (c : Char) : pyIsSpace c.toUpper = pyIsSpace c := by
  rw [Bool.eq_iff_iff, pyIsSpace_iff_toNat, pyIsSpace_iff_toNat, toNat_toUpper]
  split_ifs <;> omega

theorem not_isUpper_toLower (c : Char) : isUpperChar c.toLower = false := by
  simp only [isUpperChar, toNat_toLower, decide_eq_false_iff_not]
  split_ifs <;> omega

-- Sanity checks of the embedding against the documented behaviour.
example : extract_year_quarter "data/2023/4.json" = (some 2023, some 4) := by decide

example : extract_year_quarter "C:\\data\\2019\\2.json" = (some 2019, some 2) := by decide

example : extract_year_quarter "nothing/here.json" = (none, none) := by decide

example : normalize_state_name "andaman & nicobar islands" = "Andaman And Nicobar Islands" := by
  decide

example : clean_string "  ka*rnata  ka " = "karnata ka" := by decide

-- Sanity: the C7 scenario evaluates as the spec's example demands.
example :
    transform_aggregated_transactions
      [⟨"india", 2023, 1, "Recharge", "A", 10, 100⟩,
       ⟨"india", 2023, 1, "Recharge", "B", 5, 50⟩] =
      [⟨"India", 2023, 1, "Recharge", 15, 150⟩] := by decide

-- Sanity: the spec's map example — a country-level document listing
-- region "Karnataka" with one metric {count=7, amount=70} produces
-- {state=karnataka, district=karnataka, count=7, amount=70}.
example :
    mapTxnCountryFileRecords "x/2022/3.json"
      (.obj [("success", .bool true),
             ("data", .obj [("hoverDataList",
               .arr [.obj [("name", .str "Karnataka"),
                           ("metric", .arr [.obj [("count", .num 7),
                                                  ("amount", .num 70)]])]])])]) =
      [⟨"karnataka", 2022, 3, "karnataka", 7, 70⟩] := by decide

/-! ## List-level lemmas about the string primitives -/

theorem dropWhile_idem (p : Char → Bool) (l : List Char) :
    (l.dropWhile p).dropWhile p = l.dropWhile p := by
  induction l with
  | nil => rfl
  | cons c cs ih =>
    by_cases h : p c
    · simp [List.dropWhile_cons, h, ih]
    · simp [List.dropWhile_cons, h]

theorem stripLeft_stripLeft (xs : List Char) :
    pyStripLeft (pyStripLeft xs) = pyStripLeft xs :=
  dropWhile_idem pyIsSpace xs

theorem stripRight_stripRight (xs : List Char) :
    pyStripRight (pyStripRight xs) = pyStripRight xs := by
  simp only [pyStripRight, List.reverse_reverse]
  rw [dropWhile_idem]

/-- A left-stripped list stays left-stripped after right-stripping. -/
theorem stripLeft_stripRight (xs : List Char) (h : pyStripLeft xs = xs) :
    pyStripLeft (pyStripRight xs) = pyStripRight xs := by
  match xs with
  | [] => rfl
  | c :: t =>
    have hc : pyIsSpace c = false := by
      by_contra hc
      simp only [Bool.not_eq_false] at hc
      rw [pyStripLeft, List.dropWhile_cons, hc, if_pos rfl] at h
      have hlen := congrArg List.length h
      have hle := (List.dropWhile_sublist (p := pyIsSpace) (l := t)).length_le
      simp at hlen
      omega
    show pyStripLeft ((List.reverse (c :: t)).dropWhile pyIsSpace).reverse = _
    rw [List.reverse_cons, List.dropWhile_append]
    by_cases he : ((List.reverse t).dropWhile pyIsSpace).isEmpty
    · rw [if_pos he]
      simp [List.dropWhile_cons, hc, pyStripLeft, pyStripRight, List.reverse_cons,
        List.dropWhile_append, he]
    · rw [if_neg he]
      simp [pyStripLeft, List.dropWhile_cons, hc, pyStripRight, List.reverse_cons,
        List.dropWhile_append, he]

theorem pyStrip_pyStrip (xs : List Char) : pyStrip (pyStrip xs) = pyStrip xs := by
  unfold pyStrip
  rw [stripLeft_stripRight (pyStripLeft xs) (stripLeft_stripLeft xs),
    stripRight_stripRight]

theorem pyLower_titleAux (xs : List Char) (flag : Bool) :
    pyLower (titleAux flag xs) = pyLower xs := by
  induction xs generalizing flag with
  | nil => rfl
  | cons c cs ih =>
    cases flag <;> by_cases h : isCasedChar c <;>
      simp [titleAux, h, pyLower, toLower_toUpper, toLower_toLower] <;>
      first
        | exact ih true
        | exact ih false

theorem pyLower_pyLower (xs : List Char) : pyLower (pyLower xs) = pyLower xs := by
  simp only [pyLower, List.map_map]
  exact List.map_congr_left (fun c _ => toLower_toLower c)

theorem pyLower_stripLeft (xs : List Char) :
    pyLower (pyStripLeft xs) = pyStripLeft (pyLower xs) := by
  simp only [pyLower, pyStripLeft, List.dropWhile_map]
  rw [show pyIsSpace ∘ Char.toLower = pyIsSpace from funext pyIsSpace_toLower]

theorem pyLower_stripRight (xs : List Char) :
    pyLower (pyStripRight xs) = pyStripRight (pyLower xs) := by
  simp only [pyLower, pyStripRight, List.dropWhile_map, ← List.map_reverse]
  rw [show pyIsSpace ∘ Char.toLower = pyIsSpace from funext pyIsSpace_toLower]

theorem pyLower_pyStrip (xs : List Char) :
    pyLower (pyStrip xs) = pyStrip (pyLower xs) := by
  unfold pyStrip
  rw [pyLower_stripRight, pyLower_stripLeft]

theorem titleAux_titleAux (xs : List Char) (flag : Bool) :
    titleAux flag (titleAux flag xs) = titleAux flag xs := by
  induction xs generalizing flag with
  | nil => rfl
  | cons c cs ih =>
    cases flag <;> by_cases h : isCasedChar c <;>
      simp [titleAux, h, isCased_toUpper, isCased_toLower, toUpper_toUpper,
        toLower_toLower, ih true, ih false]

theorem pyTitle_pyTitle (xs : List Char) : pyTitle (pyTitle xs) = pyTitle xs :=
  titleAux_titleAux xs false

/-! ## Lemmas about `normalize_state_name` -/

theorem stateMappings_stable (x : List Char) :
    stateMappings (stateMappings x) = stateMappings x := by
  by_cases h1 : x = "andaman & nicobar islands".data
  · subst h1; decide
  · by_cases h2 : x = "dadra & nagar haveli & daman & diu".data
    · subst h2; decide
    · by_cases h3 : x = "jammu & kashmir".data
      · subst h3; decide
      · rw [show stateMappings x = x from by simp [stateMappings, h1, h2, h3]]
        simp [stateMappings, h1, h2, h3]

theorem stateMappings_lower (x : List Char) (h : pyLower x = x) :
    pyLower (stateMappings x) = stateMappings x := by
  by_cases h1 : x = "andaman & nicobar islands".data
  · subst h1; decide
  · by_cases h2 : x = "dadra & nagar haveli & daman & diu".data
    · subst h2; decide
    · by_cases h3 : x = "jammu & kashmir".data
      · subst h3; decide
      · rw [show stateMappings x = x from by simp [stateMappings, h1, h2, h3]]
        exact h

theorem stateMappings_strip (x : List Char) (h : pyStrip x = x) :
    pyStrip (stateMappings x) = stateMappings x := by
  by_cases h1 : x = "andaman & nicobar islands".data
  · subst h1; decide
  · by_cases h2 : x = "dadra & nagar haveli & daman & diu".data
    · subst h2; decide
    · by_cases h3 : x = "jammu & kashmir".data
      · subst h3; decide
      · rw [show stateMappings x = x from by simp [stateMappings, h1, h2, h3]]
        exact h

/-- `normalize_state_name` fixes its own output shape: `pyTitle M` for a
lowercase, stripped, alias-stable `M` is fixed. -/
theorem normalizeStateL_titleFix (M : List Char) (hLow : pyLower M = M)
    (hStrip : pyStrip M = M) (hSM : stateMappings M = M) :
    normalizeStateL (pyTitle M) = pyTitle M := by
  by_cases hr : pyTitle M = []
  · rw [hr]; rfl
  · have h2 : normalizeStateL (pyTitle M) =
        pyTitle (stateMappings (pyStrip (pyLower (pyTitle M)))) := by
      simp [normalizeStateL, hr]
    have h3 : pyLower (pyTitle M) = M := (pyLower_titleAux M false).trans hLow
    rw [h2, h3, hStrip, hSM]

theorem normalizeStateL_idem (xs : List Char) :
    normalizeStateL (normalizeStateL xs) = normalizeStateL xs := by
  by_cases hx : xs = []
  · subst hx; rfl
  · have h1 : normalizeStateL xs = pyTitle (stateMappings (pyStrip (pyLower xs))) := by
      simp [normalizeStateL, hx]
    rw [h1]
    apply normalizeStateL_titleFix
    · apply stateMappings_lower
      rw [pyLower_pyStrip, pyLower_pyLower]
    · exact stateMappings_strip _ (pyStrip_pyStrip (pyLower xs))
    · exact stateMappings_stable _

/-! ## Shape lemmas for the transforms -/

theorem transform_aggregated_users_eq (rows : List AggUserRow) :
    transform_aggregated_users rows = rows.map aggUserClean := by
  unfold transform_aggregated_users
  split
  · rename_i h; subst h; rfl
  · rfl

theorem transform_map_transactions_eq (rows : List MapTxnRow) :
    transform_map_transactions rows = rows.map mapTxnClean := by
  unfold transform_map_transactions
  split
  · rename_i h; subst h; rfl
  · rfl

theorem transform_map_users_eq (rows : List MapUserRow) :
    transform_map_users rows = rows.map mapUserClean := by
  unfold transform_map_users
  split
  · rename_i h; subst h; rfl
  · rfl

theorem transform_top_transactions_eq (rows : List TopTxnRow) :
    transform_top_transactions rows = rows.map topTxnClean := by
  unfold transform_top_transactions
  split
  · rename_i h; subst h; rfl
  · rfl

theorem transform_top_users_eq (rows : List TopUserRow) :
    transform_top_users rows = rows.map topUserClean := by
  unfold transform_top_users
  split
  · rename_i h; subst h; rfl
  · rfl

/-! ## Membership and fixity lemmas for `clean_string` -/

theorem mem_pyStrip {c : Char} {xs : List Char} (h : c ∈ pyStrip xs) : c ∈ xs := by
  unfold pyStrip pyStripRight pyStripLeft at h
  have h1 := List.mem_reverse.mp h
  have h2 := (List.dropWhile_sublist pyIsSpace).subset h1
  have h3 := List.mem_reverse.mp h2
  exact (List.dropWhile_sublist pyIsSpace).subset h3

theorem mem_intersperse {α : Type} (s : α) :
    ∀ (l : List α) (x : α), x ∈ l.intersperse s → x = s ∨ x ∈ l
  | [], x, h => by simp [List.intersperse] at h
  | [a], x, h => by
    simp [List.intersperse] at h
    simp [h]
  | a :: b :: t, x, h => by
    simp only [List.intersperse, List.mem_cons] at h
    rcases h with h | h | h
    · exact Or.inr (by simp [h])
    · exact Or.inl h
    · rcases mem_intersperse s (b :: t) x (by simpa using h) with h | h
      · exact Or.inl h
      · exact Or.inr (List.mem_cons_of_mem _ h)

theorem mem_joinSpace {c : Char} {ws : List (List Char)} (h : c ∈ joinSpace ws) :
    c = ' ' ∨ ∃ w ∈ ws, c ∈ w := by
  unfold joinSpace List.intercalate at h
  rcases List.mem_flatten.mp h with ⟨l, hl, hcl⟩
  rcases mem_intersperse [' '] ws l hl with h1 | h1
  · subst h1
    simp at hcl
    exact Or.inl hcl
  · exact Or.inr ⟨l, h1, hcl⟩

theorem mem_splitWsAux {c : Char} :
    ∀ (xs cur w : List Char), w ∈ splitWsAux xs cur → c ∈ w → c ∈ xs ∨ c ∈ cur := by
  intro xs
  induction xs with
  | nil =>
    intro cur w hw hc
    unfold splitWsAux at hw
    split at hw
    · simp at hw
    · simp at hw
      subst hw
      exact Or.inr (List.mem_reverse.mp hc)
  | cons x xs ih =>
    intro cur w hw hc
    unfold splitWsAux at hw
    split at hw
    · split at hw
      · rcases ih [] w hw hc with h | h
        · exact Or.inl (List.mem_cons_of_mem _ h)
        · simp at h
      · rcases List.mem_cons.mp hw with h | h
        · subst h
          exact Or.inr (List.mem_reverse.mp hc)
        · rcases ih [] w h hc with h2 | h2
          · exact Or.inl (List.mem_cons_of_mem _ h2)
          · simp at h2
    · rcases ih (x :: cur) w hw hc with h | h
      · exact Or.inl (List.mem_cons_of_mem _ h)
      · rcases List.mem_cons.mp h with h2 | h2
        · exact Or.inl (by simp [h2])
        · exact Or.inr h2

theorem mem_cleanStringL {c : Char} {xs : List Char} (h : c ∈ cleanStringL xs) :
    c ∈ xs ∨ c = ' ' := by
  unfold cleanStringL at h
  split at h
  · simp at h
  · have h1 := mem_pyStrip h
    have h2 := List.mem_of_mem_filter h1
    rcases mem_joinSpace h2 with h3 | ⟨w, hw, hcw⟩
    · exact Or.inr h3
    · rcases mem_splitWsAux xs [] w hw hcw with h4 | h4
      · exact Or.inl h4
      · simp at h4

theorem noUpper_pyLower (xs : List Char) : noUpper (pyLower xs) = true := by
  simp only [noUpper, pyLower, List.all_eq_true]
  intro c hc
  rcases List.mem_map.mp hc with ⟨d, _, rfl⟩
  simp [not_isUpper_toLower]

theorem noUpper_cleanStringL {xs : List Char} (h : noUpper xs = true) :
    noUpper (cleanStringL xs) = true := by
  simp only [noUpper, List.all_eq_true] at h ⊢
  intro c hc
  rcases mem_cleanStringL hc with h1 | h1
  · exact h c h1
  · subst h1; decide

theorem digit_not_space (c : Char) (h : isDigitChar c = true) : pyIsSpace c = false := by
  simp only [isDigitChar, decide_eq_true_eq] at h
  rcases hb : pyIsSpace c with _ | _
  · rfl
  · exfalso
    have := (pyIsSpace_iff_toNat c).mp hb
    omega

theorem digit_keep (c : Char) (h : isDigitChar c = true) : cleanKeep c = true := by
  simp [cleanKeep, isWordChar, h]

theorem dropWhile_none (p : Char → Bool) (xs : List Char)
    (h : ∀ c ∈ xs, p c = false) : xs.dropWhile p = xs := by
  cases xs with
  | nil => rfl
  | cons x xs => simp [List.dropWhile_cons, h x (by simp)]

theorem strip_no_space (xs : List Char) (h : ∀ c ∈ xs, pyIsSpace c = false) :
    pyStrip xs = xs := by
  unfold pyStrip pyStripLeft pyStripRight
  rw [dropWhile_none pyIsSpace xs h,
    dropWhile_none pyIsSpace xs.reverse (fun c hc => h c (List.mem_reverse.mp hc)),
    List.reverse_reverse]

theorem splitWsAux_no_space (xs : List Char) (h : ∀ c ∈ xs, pyIsSpace c = false) :
    ∀ cur, (xs = [] → cur ≠ []) → splitWsAux xs cur = [cur.reverse ++ xs] := by
  induction xs with
  | nil =>
    intro cur hcur
    unfold splitWsAux
    rw [if_neg (hcur rfl)]
    simp
  | cons x xs ih =>
    intro cur _
    unfold splitWsAux
    rw [if_neg (by simp [h x (by simp)])]
    rw [ih (fun c hc => h c (by simp [hc])) (x :: cur) (fun _ => by simp)]
    simp

theorem pySplitWs_no_space (xs : List Char) (hne : xs ≠ [])
    (h : ∀ c ∈ xs, pyIsSpace c = false) : pySplitWs xs = [xs] := by
  unfold pySplitWs
  rw [splitWsAux_no_space xs h [] (fun hx => absurd hx hne)]
  simp

theorem joinSpace_singleton (xs : List Char) : joinSpace [xs] = xs := by
  simp [joinSpace, List.intercalate, List.intersperse]

theorem cleanStringL_digits (xs : List Char) (h : pyIsDigit xs = true) :
    cleanStringL xs = xs := by
  simp only [pyIsDigit, Bool.and_eq_true, Bool.not_eq_true', List.isEmpty_eq_false,
    List.all_eq_true] at h
  obtain ⟨hne, hall⟩ := h
  have hns : ∀ c ∈ xs, pyIsSpace c = false := fun c hc => digit_not_space c (hall c hc)
  unfold cleanStringL
  rw [if_neg hne, pySplitWs_no_space xs hne hns, joinSpace_singleton,
    List.filter_eq_self.mpr (fun c hc => digit_keep c (hall c hc)),
    strip_no_space xs hns]

theorem clean_string_digits (s : String) (h : pyIsDigit s.data = true) :
    clean_string s = s := by
  unfold clean_string
  rw [cleanStringL_digits _ h]

/-! ## Claim theorems: the Transformer's field handling -/

/-- C6: `normalize_state_name` is idempotent — normalizing an already
normalized name returns the same value — and
`"Andaman & Nicobar Islands"` and `"andaman and nicobar islands"`
normalize to the identical canonical string. -/
theorem normalize_state_name_idempotent_andaman :
    (∀ s : String, normalize_state_name (normalize_state_name s) = normalize_state_name s) ∧
      normalize_state_name "Andaman & Nicobar Islands" =
        normalize_state_name "andaman and nicobar islands" := by
  constructor
  · intro s
    exact congrArg String.mk (normalizeStateL_idem s.data)
  · decide

/-- C7: given exactly the two aggregated-transaction input rows
`(india, 2023, 1, Recharge, A, 10, 100)` and
`(india, 2023, 1, Recharge, B, 5, 50)`, the Transformer outputs exactly
the single row `(India, 2023, 1, Recharge, 15, 150)`. -/
theorem transform_aggregated_transactions_spec_example :
    transform_aggregated_transactions
      [⟨"india", 2023, 1, "Recharge", "A", 10, 100⟩,
       ⟨"india", 2023, 1, "Recharge", "B", 5, 50⟩] =
      [⟨"India", 2023, 1, "Recharge", 15, 150⟩] := by decide

/-- C4 counterexample: the Transformer does apply the narrow cleaner to
pincode entity names.  A top-transactions row with
`entity_type = "pincode"` and `entity_name = " 560001 "` leaves the
transform with `entity_name = "560001"`, which differs from the input
string, refuting character-for-character preservation. -/
theorem top_pincode_name_changed :
    transform_top_transactions [⟨"india", 2022, 1, "pincode", " 560001 ", 5, 50⟩] =
      [⟨"India", 2022, 1, "pincode", "560001", 5, 50⟩] ∧
      (" 560001 " : String) ≠ "560001" := by
  constructor
  · decide
  · decide

/-- C4 (amended): the Transformer applies `clean_string` to every
top-transactions and top-users entity name, pincodes included; a pincode
entity name is preserved verbatim exactly when the cleaner fixes it — in
particular every pure digit string (the shape of a pincode) passes
through unchanged. -/
theorem top_pincode_digit_names_preserved :
    (∀ rows : List TopTxnRow, transform_top_transactions rows = rows.map topTxnClean) ∧
      (∀ r : TopTxnRow, pyIsDigit r.entity_name.data = true →
        (topTxnClean r).entity_name = r.entity_name) ∧
      (∀ rows : List TopUserRow, transform_top_users rows = rows.map topUserClean) ∧
      (∀ r : TopUserRow, pyIsDigit r.entity_name.data = true →
        (topUserClean r).entity_name = r.entity_name) := by
  refine ⟨transform_top_transactions_eq, ?_, transform_top_users_eq, ?_⟩
  · intro r h
    exact clean_string_digits r.entity_name h
  · intro r h
    exact clean_string_digits r.entity_name h

/-- C4 witness: the amended claim applied to a digit-string pincode
name. -/
theorem top_pincode_digit_names_preserved_witness :
    (topTxnClean ⟨"india", 2022, 1, "pincode", "560001", 5, 50⟩).entity_name = "560001" :=
  top_pincode_digit_names_preserved.2.1 ⟨"india", 2022, 1, "pincode", "560001", 5, 50⟩
    (by decide)

/-- C5 counterexample: a map-transactions row whose state is the empty
string is not dropped by the Transformer — it survives unchanged (the
`dropna` step removes only null entries, and `""` is not null). -/
theorem empty_state_row_survives :
    transform_map_transactions [⟨"", 2020, 1, "kollam", 1, 1⟩] =
      [⟨"", 2020, 1, "kollam", 1, 1⟩] := by decide

/-- C5 (amended): the Transformer's `dropna` removes only rows with
null key components; in this model every field holds a value, so every
input row yields exactly one output row, and a row whose state is the
empty string is retained with an empty state. -/
theorem transform_map_keeps_all_rows :
    (∀ rows : List MapTxnRow, transform_map_transactions rows = rows.map mapTxnClean) ∧
      (∀ rows : List MapTxnRow,
        (transform_map_transactions rows).length = rows.length) ∧
      (∀ r : MapTxnRow, r.state = "" → (mapTxnClean r).state = "") := by
  refine ⟨transform_map_transactions_eq, ?_, ?_⟩
  · intro rows
    rw [transform_map_transactions_eq, List.length_map]
  · intro r h
    show normalize_state_name r.state = ""
    rw [h]
    decide

/-- C5 witness: the amended claim applied to a concrete empty-state
row. -/
theorem transform_map_keeps_all_rows_witness :
    (mapTxnClean ⟨"", 2020, 1, "kollam", 1, 1⟩).state = "" :=
  transform_map_keeps_all_rows.2.2 ⟨"", 2020, 1, "kollam", 1, 1⟩ rfl

/-! ## Claim theorems: uniqueness after aggregation (C1) -/

theorem nodup_map_outKey_of (ks : List AggKey) (f : AggKey → AggTxnOut)
    (hf : ∀ k, outKey (f k) = k) (hks : ks.Nodup) :
    ((ks.map f).map outKey).Nodup := by
  rw [List.map_map]
  have h : List.map (outKey ∘ f) ks = List.map id ks :=
    List.map_congr_left (fun a _ => hf a)
  rw [h, List.map_id]
  exact hks

/-- C1 counterexample: the map-transactions transform does not group by
the natural key — two input rows sharing
`(state, year, quarter, district)` both appear in the output, so the
output is not duplicate-free on the natural key. -/
theorem map_transform_keeps_duplicate_keys :
    ¬ (((transform_map_transactions
        [⟨"kerala", 2020, 1, "kollam", 1, 1⟩,
         ⟨"kerala", 2020, 1, "kollam", 2, 2⟩]).map
          (fun r => (r.state, r.year, r.quarter, r.district))).Nodup) := by decide

/-- C1 (amended): only the aggregated-transactions transform groups by
its natural key — its output never contains two rows agreeing on
`(state, year, quarter, transaction_type)` — while the map- and
top-transactions transforms clean rows one-for-one (one output row per
input row), so duplicate-key input rows stay duplicated there. -/
theorem aggregation_only_for_aggregated_transactions :
    (∀ rows : List AggTxnRow,
        ((transform_aggregated_transactions rows).map outKey).Nodup) ∧
      (∀ rows : List MapTxnRow,
        (transform_map_transactions rows).length = rows.length) ∧
      (∀ rows : List TopTxnRow,
        (transform_top_transactions rows).length = rows.length) := by
  refine ⟨?_, ?_, ?_⟩
  · intro rows
    unfold transform_aggregated_transactions
    split
    · simp
    · dsimp only
      exact nodup_map_outKey_of _ _ (fun k => rfl)
        ((List.perm_insertionSort _ _).nodup_iff.mpr (List.nodup_dedup _))
  · intro rows
    rw [transform_map_transactions_eq, List.length_map]
  · intro rows
    rw [transform_top_transactions_eq, List.length_map]

/-! ## Claim theorems: the path coordinate resolver (C3) -/

theorem yqLoop_snd_none : ∀ (parts : List String) (y0 : Option Nat),
    hasAdjPair parts = false → (yqLoop parts y0).2 = none
  | [], _, _ => rfl
  | [p], y0, _ => by
    unfold yqLoop
    split <;> rfl
  | p :: q :: rest, y0, h => by
    simp only [hasAdjPair, Bool.or_eq_false_iff, Bool.and_eq_false_iff] at h
    unfold yqLoop
    by_cases hy : isYearPart p.data
    · rw [if_pos hy]
      have hq : isQuarterPart (stripExt q.data) = false := by
        rcases h.1 with h2 | h2
        · rw [hy] at h2; cases h2
        · exact h2
      rw [if_neg (by simp [hq])]
      exact yqLoop_snd_none (q :: rest) _ h.2
    · rw [if_neg hy]
      exact yqLoop_snd_none (q :: rest) y0 h.2

theorem yqLoop_one (p : String) (y0 : Option Nat) :
    yqLoop [p] y0 =
      if isYearPart p.data then (some (strToNat p.data), none) else (y0, none) := by
  conv_lhs => unfold yqLoop

theorem yqLoop_cons2_found {p q : String} {rest : List String} {y0 : Option Nat}
    (hy : isYearPart p.data = true) (hq : isQuarterPart (stripExt q.data) = true) :
    yqLoop (p :: q :: rest) y0 =
      (some (strToNat p.data), some (strToNat (stripExt q.data))) := by
  conv_lhs => unfold yqLoop
  rw [if_pos hy, if_pos hq]

theorem yqLoop_cons2_year_noq {p q : String} {rest : List String} {y0 : Option Nat}
    (hy : isYearPart p.data = true) (hq : isQuarterPart (stripExt q.data) = false) :
    yqLoop (p :: q :: rest) y0 = yqLoop (q :: rest) (some (strToNat p.data)) := by
  conv_lhs => unfold yqLoop
  rw [if_pos hy, if_neg (by simp [hq])]

theorem yqLoop_cons2_noyear {p q : String} {rest : List String} {y0 : Option Nat}
    (hy : isYearPart p.data = false) :
    yqLoop (p :: q :: rest) y0 = yqLoop (q :: rest) y0 := by
  conv_lhs => unfold yqLoop
  rw [if_neg (by simp [hy])]

theorem yqLoop_fst_none : ∀ (parts : List String) (y0 : Option Nat),
    (yqLoop parts y0).1 = none ↔
      (y0 = none ∧ ∀ p ∈ parts, isYearPart p.data = false)
  | [], y0 => by simp [yqLoop]
  | [p], y0 => by
    rw [yqLoop_one]
    by_cases hy : isYearPart p.data
    · simp [hy]
    · simp only [Bool.not_eq_true] at hy
      simp [hy]
  | p :: q :: rest, y0 => by
    by_cases hy : isYearPart p.data
    · by_cases hq : isQuarterPart (stripExt q.data)
      · rw [yqLoop_cons2_found hy hq]
        simp [List.forall_mem_cons, hy]
      · rw [yqLoop_cons2_year_noq hy (by simpa using hq)]
        rw [yqLoop_fst_none (q :: rest) (some (strToNat p.data))]
        simp [List.forall_mem_cons, hy]
    · simp only [Bool.not_eq_true] at hy
      rw [yqLoop_cons2_noyear hy]
      rw [yqLoop_fst_none (q :: rest) y0]
      simp [List.forall_mem_cons, hy]

theorem yqLoop_finds : ∀ (pre : List String) (ys qs : String) (y0 : Option Nat),
    hasAdjPair (pre ++ [ys]) = false → isYearPart ys.data = true →
    isQuarterPart (stripExt qs.data) = true →
    yqLoop (pre ++ [ys, qs]) y0 =
      (some (strToNat ys.data), some (strToNat (stripExt qs.data)))
  | [], ys, qs, y0, _, hy, hq => by
    show yqLoop [ys, qs] y0 = _
    unfold yqLoop
    rw [if_pos hy, if_pos hq]
  | [p], ys, qs, y0, h, hy, hq => by
    simp only [List.cons_append, List.nil_append, hasAdjPair, Bool.or_eq_false_iff,
      Bool.and_eq_false_iff] at h
    show yqLoop [p, ys, qs] y0 = _
    unfold yqLoop
    by_cases hyp : isYearPart p.data
    · rw [if_pos hyp]
      have hqy : isQuarterPart (stripExt ys.data) = false := by
        rcases h.1 with h2 | h2
        · rw [hyp] at h2; cases h2
        · exact h2
      rw [if_neg (by simp [hqy])]
      exact yqLoop_finds [] ys qs _ (by simp [hasAdjPair]) hy hq
    · rw [if_neg hyp]
      exact yqLoop_finds [] ys qs y0 (by simp [hasAdjPair]) hy hq
  | p :: p' :: pre, ys, qs, y0, h, hy, hq => by
    simp only [List.cons_append, hasAdjPair, Bool.or_eq_false_iff,
      Bool.and_eq_false_iff] at h
    show yqLoop (p :: p' :: (pre ++ [ys, qs])) y0 = _
    unfold yqLoop
    by_cases hyp : isYearPart p.data
    · rw [if_pos hyp]
      have hqp : isQuarterPart (stripExt p'.data) = false := by
        rcases h.1 with h2 | h2
        · rw [hyp] at h2; cases h2
        · exact h2
      rw [if_neg (by simp [hqp])]
      exact yqLoop_finds (p' :: pre) ys qs _ (by
        simp only [List.cons_append, hasAdjPair, Bool.or_eq_false_iff,
          Bool.and_eq_false_iff]
        exact h.2) hy hq
    · rw [if_neg hyp]
      exact yqLoop_finds (p' :: pre) ys qs y0 (by
        simp only [List.cons_append, hasAdjPair, Bool.or_eq_false_iff,
          Bool.and_eq_false_iff]
        exact h.2) hy hq

/-- C3 counterexample: the path `"2020/x"` has no adjacent
(year, quarter) segment pair, yet `extract_year_quarter` returns
`(some 2020, none)` — the year output is not absent, refuting the
claimed `(None, None)`. -/
theorem lone_year_path_not_none_none :
    hasAdjPair (pathParts "2020/x") = false ∧
      extract_year_quarter "2020/x" = (some 2020, none) := by
  exact ⟨by decide, by decide⟩

/-- C3 (amended): on a path whose segments end in a well-formed
`<Y>/<Q>.json` pair with no earlier adjacent (year, quarter) pair, the
resolver returns exactly that pair; on a path with no adjacent pair at
all, the quarter output is absent, and the year output is absent exactly
when no segment is an in-range 4-digit year (a lone year segment is
still reported). -/
theorem extract_year_quarter_amended :
    (∀ (path : String) (pre : List String) (ys qs : String),
        pathParts path = pre ++ [ys, qs] →
        hasAdjPair (pre ++ [ys]) = false →
        isYearPart ys.data = true →
        isQuarterPart (stripExt qs.data) = true →
        extract_year_quarter path =
          (some (strToNat ys.data), some (strToNat (stripExt qs.data)))) ∧
      (∀ path : String,
        hasAdjPair (pathParts path) = false →
          (extract_year_quarter path).2 = none ∧
            ((extract_year_quarter path).1 = none ↔
              ∀ p ∈ pathParts path, isYearPart p.data = false)) := by
  constructor
  · intro path pre ys qs hsplit hpre hy hq
    unfold extract_year_quarter
    rw [hsplit]
    exact yqLoop_finds pre ys qs none hpre hy hq
  · intro path h
    refine ⟨yqLoop_snd_none _ none h, ?_⟩
    unfold extract_year_quarter
    rw [yqLoop_fst_none]
    simp

/-- C3 witness: the amended claim applied to the well-formed path
`data/2023/4.json` and to the pairless path `2020/x`. -/
theorem extract_year_quarter_amended_witness :
    extract_year_quarter "data/2023/4.json" = (some 2023, some 4) ∧
      (extract_year_quarter "2020/x").2 = none := by
  constructor
  · have h := extract_year_quarter_amended.1 "data/2023/4.json" ["data"] "2023" "4.json"
      (by decide) (by decide) (by decide) (by decide)
    exact h.trans (by decide)
  · exact (extract_year_quarter_amended.2 "2020/x" (by decide)).1

/-! ## Claim theorems: the Loader (C2, C8) -/

/-- C2 counterexample: a mid-batch `executemany` failure inside
`insert_aggregated_transactions` is caught by the `except Error` handler,
rolled back and logged — and the function returns normally (`.ok`), so
the caller observes no error; the claim's required propagation to the
Orchestrator does not happen. -/
theorem insert_failure_not_propagated :
    (insert_aggregated_transactions [⟨"India", 2023, 1, "Recharge", 15, 150⟩]
        ⟨[], [], true⟩ (.execFail 1)).2 = .ok () := by
  rfl

/-- C2 (amended): on a sink write failure during the batch insert the
whole batch is rolled back — the committed table is unchanged and the
transactional view is restored to it, so no partial application is
visible — but the error is absorbed inside the per-dataset insert: the
function returns normally instead of propagating the failure to its
caller. -/
theorem insert_agg_rollback_and_swallow (rows : List AggTxnOut) (c : MConn) (k : Nat)
    (h : c.work = c.base) :
    (insert_aggregated_transactions rows c (.execFail k)).1.base = c.base ∧
      (insert_aggregated_transactions rows c (.execFail k)).1.work = c.base ∧
      (insert_aggregated_transactions rows c (.execFail k)).2 = .ok () := by
  unfold insert_aggregated_transactions
  split
  · exact ⟨rfl, h, rfl⟩
  · exact ⟨rfl, rfl, rfl⟩

/-- C2 witness: the amended claim at a concrete one-row batch failing at
record 0 on a fresh connection. -/
theorem insert_agg_rollback_and_swallow_witness :
    (insert_aggregated_transactions [⟨"India", 2023, 1, "Recharge", 15, 150⟩]
        ⟨[], [], true⟩ (.execFail 0)).1.base = [] ∧
      (insert_aggregated_transactions [⟨"India", 2023, 1, "Recharge", 15, 150⟩]
          ⟨[], [], true⟩ (.execFail 0)).1.work = [] ∧
      (insert_aggregated_transactions [⟨"India", 2023, 1, "Recharge", 15, 150⟩]
          ⟨[], [], true⟩ (.execFail 0)).2 = .ok () :=
  insert_agg_rollback_and_swallow [⟨"India", 2023, 1, "Recharge", 15, 150⟩]
    ⟨[], [], true⟩ 0 rfl

/-- C8 counterexample: when `get_db_connection` itself raises, the
`finally` block of `insert_all_data` references the never-assigned local
`connection` and raises `NameError` — the release logic raises a
secondary error and no close happens, refuting the claim's "no secondary
error on every exit path". -/
theorem insert_all_data_acquisition_failure_name_error :
    (insert_all_data [] true true).outcome = .error .nameError ∧
      (insert_all_data [] true true).connClosed = false := by
  exact ⟨rfl, rfl⟩

theorem insertDataset_nil (c : MConn) (plan : InsPlan) :
    insertDataset [] c plan = (c, .ok ()) := rfl

theorem insertDataset_normal (rows : List InsRecord) (c : MConn) (h : rows ≠ []) :
    insertDataset rows c .normal = ((c.executemany rows).commit, .ok ()) := by
  unfold insertDataset
  rw [if_neg h]

theorem insertDataset_cursorFail (rows : List InsRecord) (c : MConn) (h : rows ≠ []) :
    insertDataset rows c .cursorFail = (c, .error .dbError) := by
  unfold insertDataset
  rw [if_neg h]

theorem insertDataset_execFail (rows : List InsRecord) (c : MConn) (k : Nat)
    (h : rows ≠ []) :
    insertDataset rows c (.execFail k) =
      ((c.executemany (rows.take k)).rollback, .ok ()) := by
  unfold insertDataset
  rw [if_neg h]

theorem insertAllBody_cons_none (plan : InsPlan)
    (rest : List (Option (List InsRecord) × InsPlan)) (c : MConn) :
    insertAllBody ((none, plan) :: rest) c = insertAllBody rest c := rfl

theorem insertAllBody_cons_some (rows : List InsRecord) (plan : InsPlan)
    (rest : List (Option (List InsRecord) × InsPlan)) (c : MConn) :
    insertAllBody ((some rows, plan) :: rest) c =
      match insertDataset rows c plan with
      | (c1, .ok _) => insertAllBody rest c1
      | (c1, .error e) => (c1, .error e) := rfl

theorem insertAllBody_outcomes (datasets : List (Option (List InsRecord) × InsPlan)) :
    ∀ c : MConn, (insertAllBody datasets c).2 = .ok () ∨
      (insertAllBody datasets c).2 = .error .dbError := by
  induction datasets with
  | nil => intro c; exact Or.inl rfl
  | cons d rest ih =>
    intro c
    rcases d with ⟨rows?, plan⟩
    rcases rows? with _ | rows
    · rw [insertAllBody_cons_none]
      exact ih c
    · rw [insertAllBody_cons_some]
      by_cases hrows : rows = []
      · subst hrows
        rw [insertDataset_nil]
        exact ih c
      · rcases plan with _ | _ | k
        · rw [insertDataset_normal rows c hrows]
          exact ih _
        · rw [insertDataset_cursorFail rows c hrows]
          exact Or.inr rfl
        · rw [insertDataset_execFail rows c k hrows]
          exact ih _

theorem insertAllBody_connected (datasets : List (Option (List InsRecord) × InsPlan)) :
    ∀ c : MConn, (insertAllBody datasets c).1.connected = c.connected := by
  induction datasets with
  | nil => intro c; rfl
  | cons d rest ih =>
    intro c
    rcases d with ⟨rows?, plan⟩
    rcases rows? with _ | rows
    · rw [insertAllBody_cons_none]
      exact ih c
    · rw [insertAllBody_cons_some]
      by_cases hrows : rows = []
      · subst hrows
        rw [insertDataset_nil]
        exact ih c
      · rcases plan with _ | _ | k
        · rw [insertDataset_normal rows c hrows]
          exact ih _
        · rw [insertDataset_cursorFail rows c hrows]
        · rw [insertDataset_execFail rows c k hrows]
          exact ih _

/-- C8 (amended): whenever `get_db_connection` returns a connection, the
`finally` block closes it on every exit path — normal completion and
every failure plan alike — and the run's outcome is either success or
the re-raised sink error, never a secondary `NameError`/`AttributeError`
from the release logic; but when acquisition itself raises, the release
logic raises `NameError` instead. -/
theorem insert_all_data_releases_connection
    (datasets : List (Option (List InsRecord) × InsPlan)) :
    (insert_all_data datasets false true).connClosed = true ∧
      ((insert_all_data datasets false true).outcome = .ok () ∨
        (insert_all_data datasets false true).outcome = .error .dbError) := by
  unfold insert_all_data get_db_connection
  simp only [Bool.false_eq_true, if_false, if_true, reduceIte]
  have hconn := insertAllBody_connected datasets
    { base := [], work := [], connected := true }
  have hout := insertAllBody_outcomes datasets
    { base := [], work := [], connected := true }
  rcases hres : insertAllBody datasets { base := [], work := [], connected := true }
    with ⟨c1, res⟩
  rw [hres] at hconn hout
  have hc1 : c1.connected = true := hconn
  have hout2 : res = .ok () ∨ res = .error .dbError := hout
  constructor
  · dsimp only
    simp only [hc1, reduceIte]
  · dsimp only
    simp only [hc1, reduceIte]
    exact hout2

theorem aggTxnFileRecords_skip (p : String) (d : Json) (h : docSkipped d = true) :
    aggTxnFileRecords p d = [] := by
  unfold aggTxnFileRecords
  rcases hyq : extract_year_quarter p with ⟨oy, oq⟩
  rcases oy with _ | y <;> rcases oq with _ | q <;> simp [h]

theorem aggUserFileRecords_skip (p : String) (d : Json) (h : docSkipped d = true) :
    aggUserFileRecords p d = [] := by
  unfold aggUserFileRecords
  rcases hyq : extract_year_quarter p with ⟨oy, oq⟩
  rcases oy with _ | y <;> rcases oq with _ | q <;> simp [h]

theorem mapTxnCountryFileRecords_skip (p : String) (d : Json) (h : docSkipped d = true) :
    mapTxnCountryFileRecords p d = [] := by
  unfold mapTxnCountryFileRecords
  rcases hyq : extract_year_quarter p with ⟨oy, oq⟩
  rcases oy with _ | y <;> rcases oq with _ | q <;> simp [h]

theorem mapTxnStateFileRecords_skip (sd p : String) (d : Json) (h : docSkipped d = true) :
    mapTxnStateFileRecords sd p d = [] := by
  unfold mapTxnStateFileRecords
  rcases hyq : extract_year_quarter p with ⟨oy, oq⟩
  rcases oy with _ | y <;> rcases oq with _ | q <;> simp [h]

theorem mapUserCountryFileRecords_skip (p : String) (d : Json) (h : docSkipped d = true) :
    mapUserCountryFileRecords p d = [] := by
  unfold mapUserCountryFileRecords
  rcases hyq : extract_year_quarter p with ⟨oy, oq⟩
  rcases oy with _ | y <;> rcases oq with _ | q <;> simp [h]

theorem mapUserStateFileRecords_skip (sd p : String) (d : Json) (h : docSkipped d = true) :
    mapUserStateFileRecords sd p d = [] := by
  unfold mapUserStateFileRecords
  rcases hyq : extract_year_quarter p with ⟨oy, oq⟩
  rcases oy with _ | y <;> rcases oq with _ | q <;> simp [h]

theorem topTxnFileRecords_skip (p : String) (d : Json) (h : docSkipped d = true) :
    topTxnFileRecords p d = [] := by
  unfold topTxnFileRecords
  rcases hyq : extract_year_quarter p with ⟨oy, oq⟩
  rcases oy with _ | y <;> rcases oq with _ | q <;> simp [h]

theorem topUserFileRecords_skip (p : String) (d : Json) (h : docSkipped d = true) :
    topUserFileRecords p d = [] := by
  unfold topUserFileRecords
  rcases hyq : extract_year_quarter p with ⟨oy, oq⟩
  rcases oy with _ | y <;> rcases oq with _ | q <;> simp [h]

/-- C9: a document with `success = false`, a missing success flag (in
particular an unparseable document, i.e. the empty object), or a
missing/empty data payload contributes zero records in each of the six
extractors regardless of its payload, and removing it from the file list
leaves each extractor's output unchanged — the remaining documents are
still processed. -/
theorem extractors_skip_bad_documents (p sd : String) (d : Json)
    (h : docSkipped d = true) :
    (aggTxnFileRecords p d = [] ∧ aggUserFileRecords p d = [] ∧
      mapTxnCountryFileRecords p d = [] ∧ mapTxnStateFileRecords sd p d = [] ∧
      mapUserCountryFileRecords p d = [] ∧ mapUserStateFileRecords sd p d = [] ∧
      topTxnFileRecords p d = [] ∧ topUserFileRecords p d = []) ∧
      (∀ fs1 fs2 : List (String × Json),
        extract_aggregated_transactions (fs1 ++ (p, d) :: fs2) =
          extract_aggregated_transactions (fs1 ++ fs2)) ∧
      (∀ fs1 fs2 : List (String × Json),
        extract_aggregated_users (fs1 ++ (p, d) :: fs2) =
          extract_aggregated_users (fs1 ++ fs2)) ∧
      (∀ (cf1 cf2 : List (String × Json)) (sf : List (String × String × Json)),
        extract_map_transactions (cf1 ++ (p, d) :: cf2) sf =
          extract_map_transactions (cf1 ++ cf2) sf) ∧
      (∀ (cf : List (String × Json)) (sf1 sf2 : List (String × String × Json)),
        extract_map_transactions cf (sf1 ++ (sd, p, d) :: sf2) =
          extract_map_transactions cf (sf1 ++ sf2)) ∧
      (∀ (cf1 cf2 : List (String × Json)) (sf : List (String × String × Json)),
        extract_map_users (cf1 ++ (p, d) :: cf2) sf =
          extract_map_users (cf1 ++ cf2) sf) ∧
      (∀ (cf : List (String × Json)) (sf1 sf2 : List (String × String × Json)),
        extract_map_users cf (sf1 ++ (sd, p, d) :: sf2) =
          extract_map_users cf (sf1 ++ sf2)) ∧
      (∀ fs1 fs2 : List (String × Json),
        extract_top_transactions (fs1 ++ (p, d) :: fs2) =
          extract_top_transactions (fs1 ++ fs2)) ∧
      (∀ fs1 fs2 : List (String × Json),
        extract_top_users (fs1 ++ (p, d) :: fs2) =
          extract_top_users (fs1 ++ fs2)) := by
  refine ⟨⟨aggTxnFileRecords_skip p d h, aggUserFileRecords_skip p d h,
    mapTxnCountryFileRecords_skip p d h, mapTxnStateFileRecords_skip sd p d h,
    mapUserCountryFileRecords_skip p d h, mapUserStateFileRecords_skip sd p d h,
    topTxnFileRecords_skip p d h, topUserFileRecords_skip p d h⟩,
    ?_, ?_, ?_, ?_, ?_, ?_, ?_, ?_⟩
  · intro fs1 fs2
    simp [extract_aggregated_transactions, aggTxnFileRecords_skip p d h]
  · intro fs1 fs2
    simp [extract_aggregated_users, aggUserFileRecords_skip p d h]
  · intro cf1 cf2 sf
    simp [extract_map_transactions, mapTxnCountryFileRecords_skip p d h]
  · intro cf sf1 sf2
    simp [extract_map_transactions, mapTxnStateFileRecords_skip sd p d h]
  · intro cf1 cf2 sf
    simp [extract_map_users, mapUserCountryFileRecords_skip p d h]
  · intro cf sf1 sf2
    simp [extract_map_users, mapUserStateFileRecords_skip sd p d h]
  · intro fs1 fs2
    simp [extract_top_transactions, topTxnFileRecords_skip p d h]
  · intro fs1 fs2
    simp [extract_top_users, topUserFileRecords_skip p d h]

/-- C9 witness: the claim applied to a concrete success-false document
with a non-trivial transaction payload. -/
theorem extractors_skip_bad_documents_witness :
    aggTxnFileRecords "a/2020/1.json" skippedDoc = [] ∧
      aggUserFileRecords "a/2020/1.json" skippedDoc = [] ∧
      mapTxnCountryFileRecords "a/2020/1.json" skippedDoc = [] ∧
      mapTxnStateFileRecords "kerala" "a/2020/1.json" skippedDoc = [] ∧
      mapUserCountryFileRecords "a/2020/1.json" skippedDoc = [] ∧
      mapUserStateFileRecords "kerala" "a/2020/1.json" skippedDoc = [] ∧
      topTxnFileRecords "a/2020/1.json" skippedDoc = [] ∧
      topUserFileRecords "a/2020/1.json" skippedDoc = [] :=
  (extractors_skip_bad_documents "a/2020/1.json" "kerala" skippedDoc (by decide)).1

/-! ## Claim theorems: case discipline through the pipeline (C10) -/

/-- The output of `normalize_state_name` is title-case fixed. -/
theorem pyTitle_normalizeStateL (xs : List Char) :
    pyTitle (normalizeStateL xs) = normalizeStateL xs := by
  by_cases hx : xs = []
  · subst hx; rfl
  · rw [show normalizeStateL xs = pyTitle (stateMappings (pyStrip (pyLower xs))) from by
      simp [normalizeStateL, hx]]
    exact pyTitle_pyTitle _

theorem noUpper_pyLowerS (s : String) : noUpper (pyLowerS s).data = true :=
  noUpper_pyLower s.data

theorem noUpper_clean_string {s : String} (h : noUpper s.data = true) :
    noUpper (clean_string s).data = true :=
  noUpper_cleanStringL h

theorem extract_map_transactions_district_lower
    (cf : List (String × Json)) (sf : List (String × String × Json)) :
    ∀ r ∈ extract_map_transactions cf sf, noUpper r.district.data = true := by
  intro r hr
  unfold extract_map_transactions at hr
  rcases List.mem_append.mp hr with hr | hr
  · rcases List.mem_flatMap.mp hr with ⟨f, _, hrf⟩
    unfold mapTxnCountryFileRecords at hrf
    rcases hyq : extract_year_quarter f.1 with ⟨oy, oq⟩
    rw [hyq] at hrf
    rcases oy with _ | y <;> rcases oq with _ | q <;> simp at hrf
    rcases hrf with ⟨-, a, -, b, -, rfl⟩
    exact noUpper_pyLowerS _
  · rcases List.mem_flatMap.mp hr with ⟨f, _, hrf⟩
    unfold mapTxnStateFileRecords at hrf
    rcases hyq : extract_year_quarter f.2.1 with ⟨oy, oq⟩
    rw [hyq] at hrf
    rcases oy with _ | y <;> rcases oq with _ | q <;> simp at hrf
    rcases hrf with ⟨-, a, -, b, -, rfl⟩
    exact noUpper_pyLowerS _

theorem extract_map_users_district_lower
    (cf : List (String × Json)) (sf : List (String × String × Json)) :
    ∀ r ∈ extract_map_users cf sf, noUpper r.district.data = true := by
  intro r hr
  unfold extract_map_users at hr
  rcases List.mem_append.mp hr with hr | hr
  · rcases List.mem_flatMap.mp hr with ⟨f, _, hrf⟩
    unfold mapUserCountryFileRecords at hrf
    rcases hyq : extract_year_quarter f.1 with ⟨oy, oq⟩
    rw [hyq] at hrf
    rcases oy with _ | y <;> rcases oq with _ | q <;> simp at hrf
    rcases hrf with ⟨-, a, b, -, rfl⟩
    exact noUpper_pyLowerS _
  · rcases List.mem_flatMap.mp hr with ⟨f, _, hrf⟩
    unfold mapUserStateFileRecords at hrf
    rcases hyq : extract_year_quarter f.2.1 with ⟨oy, oq⟩
    rw [hyq] at hrf
    rcases oy with _ | y <;> rcases oq with _ | q <;> simp at hrf
    rcases hrf with ⟨-, a, b, -, rfl⟩
    exact noUpper_pyLowerS _

theorem extract_top_transactions_entity_lower (fs : List (String × Json)) :
    ∀ r ∈ extract_top_transactions fs,
      r.entity_type = "pincode" ∨ noUpper r.entity_name.data = true := by
  intro r hr
  unfold extract_top_transactions at hr
  rcases List.mem_flatMap.mp hr with ⟨f, _, hrf⟩
  unfold topTxnFileRecords at hrf
  rcases hyq : extract_year_quarter f.1 with ⟨oy, oq⟩
  rw [hyq] at hrf
  rcases oy with _ | y <;> rcases oq with _ | q <;> simp at hrf
  rcases hrf with ⟨-, ⟨a, -, rfl⟩ | ⟨a, -, rfl⟩ | ⟨a, -, rfl⟩⟩
  · exact Or.inr (noUpper_pyLowerS _)
  · exact Or.inr (noUpper_pyLowerS _)
  · exact Or.inl rfl

theorem extract_top_users_entity_lower (fs : List (String × Json)) :
    ∀ r ∈ extract_top_users fs,
      r.entity_type = "pincode" ∨ noUpper r.entity_name.data = true := by
  intro r hr
  unfold extract_top_users at hr
  rcases List.mem_flatMap.mp hr with ⟨f, _, hrf⟩
  unfold topUserFileRecords at hrf
  rcases hyq : extract_year_quarter f.1 with ⟨oy, oq⟩
  rw [hyq] at hrf
  rcases oy with _ | y <;> rcases oq with _ | q <;> simp at hrf
  rcases hrf with ⟨-, ⟨a, -, rfl⟩ | ⟨a, -, rfl⟩ | ⟨a, -, rfl⟩⟩
  · exact Or.inr (noUpper_pyLowerS _)
  · exact Or.inr (noUpper_pyLowerS _)
  · exact Or.inl rfl

/-- C10: every MapTransaction/MapUser/TopTransaction/TopUser row
produced by the pipeline (extraction followed by transformation) whose
entity type is not `pincode` carries an all-lowercase district or entity
name — the extractors lowercase these names and the narrow cleaner never
changes letter case — while the state column is title-cased. -/
theorem pipeline_district_names_lowercase :
    (∀ (cf : List (String × Json)) (sf : List (String × String × Json)),
        ∀ r ∈ transform_map_transactions (extract_map_transactions cf sf),
          noUpper r.district.data = true ∧ pyTitle r.state.data = r.state.data) ∧
      (∀ (cf : List (String × Json)) (sf : List (String × String × Json)),
        ∀ r ∈ transform_map_users (extract_map_users cf sf),
          noUpper r.district.data = true ∧ pyTitle r.state.data = r.state.data) ∧
      (∀ fs : List (String × Json),
        ∀ r ∈ transform_top_transactions (extract_top_transactions fs),
          (r.entity_type ≠ "pincode" → noUpper r.entity_name.data = true) ∧
            pyTitle r.state.data = r.state.data) ∧
      (∀ fs : List (String × Json),
        ∀ r ∈ transform_top_users (extract_top_users fs),
          (r.entity_type ≠ "pincode" → noUpper r.entity_name.data = true) ∧
            pyTitle r.state.data = r.state.data) := by
  refine ⟨?_, ?_, ?_, ?_⟩
  · intro cf sf r hr
    rw [transform_map_transactions_eq] at hr
    rcases List.mem_map.mp hr with ⟨r0, hr0, rfl⟩
    exact ⟨noUpper_clean_string (extract_map_transactions_district_lower cf sf r0 hr0),
      pyTitle_normalizeStateL _⟩
  · intro cf sf r hr
    rw [transform_map_users_eq] at hr
    rcases List.mem_map.mp hr with ⟨r0, hr0, rfl⟩
    exact ⟨noUpper_clean_string (extract_map_users_district_lower cf sf r0 hr0),
      pyTitle_normalizeStateL _⟩
  · intro fs r hr
    rw [transform_top_transactions_eq] at hr
    rcases List.mem_map.mp hr with ⟨r0, hr0, rfl⟩
    refine ⟨?_, pyTitle_normalizeStateL _⟩
    intro hne
    rcases extract_top_transactions_entity_lower fs r0 hr0 with hp | hlow
    · exact absurd (by rw [show (topTxnClean r0).entity_type = pyLowerS r0.entity_type
        from rfl, hp]; decide) hne
    · exact noUpper_clean_string hlow
  · intro fs r hr
    rw [transform_top_users_eq] at hr
    rcases List.mem_map.mp hr with ⟨r0, hr0, rfl⟩
    refine ⟨?_, pyTitle_normalizeStateL _⟩
    intro hne
    rcases extract_top_users_entity_lower fs r0 hr0 with hp | hlow
    · exact absurd (by rw [show (topUserClean r0).entity_type = pyLowerS r0.entity_type
        from rfl, hp]; decide) hne
    · exact noUpper_clean_string hlow

/-- C10 witness: the claim applied to a one-document pipeline whose
output row is `(Karnataka, 2022, 3, karnataka, 7, 70)`. -/
theorem pipeline_district_names_lowercase_witness :
    noUpper "karnataka".data = true ∧ pyTitle "Karnataka".data = "Karnataka".data :=
  pipeline_district_names_lowercase.1 [("x/2022/3.json", karnatakaDoc)] []
    ⟨"Karnataka", 2022, 3, "karnataka", 7, 70⟩ (by decide)
